import Mathlib

/-!
Shallow embedding of the `basedtyping` runtime-reified-generics library
(`src/basedtyping/__init__.py` and `src/basedtyping/reified_generic.py`),
together with theorems settling the specification claims.

Python classes are modelled by a small closed universe `PyClass` equipped with
the subclass relation the repository's tests exercise (`int`, `str`, `bool`,
`object`, plus origin classes for generic templates and an unrelated origin).
Type forms (a class, a new-style union `X | Y`, an old-style `typing.Union[X, Y]`,
or an unbound `TypeVar`) are the `TypeForm` inductive.  Python exceptions are
modelled with `Except PyErr`.
-/

namespace Basedtyping

/-- The closed universe of Python classes used by the embedding: `int`, `str`,
`bool`, `object`, two related origin classes `clsA`/`clsB` (`clsB` subclasses
`clsA`) standing for reified-generic templates, and `clsOther`, unrelated to
them. -/
inductive PyClass where
  | pyInt
  | pyStr
  | pyBool
  | pyObject
  | clsA
  | clsB
  | clsOther
  deriving DecidableEq, Repr

/-- Python's builtin subclass relation between plain classes, restricted to the
universe above: reflexive, everything is a subclass of `object`, `bool` is a
subclass of `int`, and `clsB` is a subclass of `clsA`. -/
def subclassB (c d : PyClass) : Bool :=
  c = d || d = .pyObject || (c = .pyBool && d = .pyInt) || (c = .clsB && d = .clsA)

/-- A runtime type form: a concrete class, a new-style union (`types.UnionType`,
written `X | Y`), an old-style union (`typing.Union[X, Y]`), or an unbound
`TypeVar` (identified by an id).  Union members are kept as lists of classes,
matching the repository's uses (Python flattens nested unions). -/
inductive TypeForm where
  | cls (c : PyClass)
  | unionNew (ts : List PyClass)
  | unionOld (ts : List PyClass)
  | tvar (n : Nat)
  deriving DecidableEq, Repr

/-- Whether a type form is an unbound `TypeVar`. -/
def TypeForm.isTVar : TypeForm → Bool
  | .tvar _ => true
  | _ => false

/-- The Python exceptions the embedded code can raise. `typeError` stands for
`TypeError` from the builtin `issubclass`, `valueError` for the `ValueError`
raised by `zip(..., strict=True)` on a length mismatch, and the last two for
`basedtyping.NoParametersError` and `basedtyping.NotReifiedParameterError`. -/
inductive PyErr where
  | typeError
  | valueError
  | noParametersError
  | notReifiedParameterError
  deriving DecidableEq, Repr

/-- Python's builtin `issubclass(c, forminfo)` for a class `c`: delegates to
the plain subclass relation for a class reference, accepts any-member matching
for a union reference (both new-style and `typing.Union` support
`issubclass` since Python 3.10), and raises `TypeError` on a `TypeVar`
reference. -/
def issubclass (c : PyClass) : TypeForm → Except PyErr Bool
  | .cls d => .ok (subclassB c d)
  | .unionNew ts => .ok (ts.any (subclassB c))
  | .unionOld ts => .ok (ts.any (subclassB c))
  | .tvar _ => .error .typeError

/-- The loop inside `issubform` for a union `form`: every member must be a
subclass of `forminfo`, returning `False` at the first failing member
(`src/basedtyping/__init__.py:221-225`). -/
def issubformUnion (ts : List PyClass) (forminfo : TypeForm) : Except PyErr Bool :=
  match ts with
  | [] => .ok true
  | t :: rest =>
    match issubclass t forminfo with
    | .error e => .error e
    | .ok b => if b then issubformUnion rest forminfo else .ok false

/-- `basedtyping.issubform` (`src/basedtyping/__init__.py:203-226`): if `form`
is a union (new- or old-style), every member must be an ordinary subclass of
`forminfo`; otherwise it delegates to the builtin `issubclass` (which raises
`TypeError` when `form` is a `TypeVar`, not a class). -/
def issubform : TypeForm → TypeForm → Except PyErr Bool
  | .unionNew ts, forminfo => issubformUnion ts forminfo
  | .unionOld ts, forminfo => issubformUnion ts forminfo
  | .cls c, forminfo => issubclass c forminfo
  | .tvar _, _ => .error .typeError

/-- Equality of the member sets of two unions, as Python's `UnionType.__eq__`
compares the frozensets of union arguments. -/
def memberSetEq (as bs : List PyClass) : Bool :=
  as.all (fun a => bs.contains a) && bs.all (fun b => as.contains b)

/-- Python `==` on type forms: classes compare by identity of the class,
unions (old- or new-style, interchangeably) compare by member-set equality,
`TypeVar`s by identity, and any mixed comparison is `False`. -/
def pyEq : TypeForm → TypeForm → Bool
  | .cls c, .cls d => c = d
  | .unionNew ts, .unionNew us => memberSetEq ts us
  | .unionNew ts, .unionOld us => memberSetEq ts us
  | .unionOld ts, .unionNew us => memberSetEq ts us
  | .unionOld ts, .unionOld us => memberSetEq ts us
  | .tvar n, .tvar m => n = m
  | _, _ => false

/-- Python `is` (object identity) on type forms as they occur in two distinct
generic-alias argument tuples: classes and `TypeVar`s are interned singleton
objects, so identity coincides with equality for them; a union expression
(`int | str` or `typing.Union[int, str]`) evaluates to a fresh object each
time it is written, so union arguments of two separately constructed aliases
are never identical. -/
def pyIs : TypeForm → TypeForm → Bool
  | .cls c, .cls d => c = d
  | .tvar n, .tvar m => n = m
  | _, _ => false

/-- The variance tag of a declared `TypeVar` (a Python `TypeVar` is covariant,
contravariant, or neither). -/
inductive Variance where
  | covariant
  | contravariant
  | invariant
  deriving DecidableEq, Repr

/-- A `_ReifiedGenericAlias`: the origin class, the variances of the origin's
declared type parameters (`self.__origin__.__parameters__`, as read by
`_type_vars`), and the tuple of type arguments (`self.__args__`). -/
structure Descriptor where
  origin : PyClass
  typeVars : List Variance
  args : List TypeForm
  deriving DecidableEq, Repr

/-- `_ReifiedGenericAlias._check_generics_reified`
(`src/basedtyping/__init__.py:56-61`): raises `NotReifiedParameterError` when
the alias still has unbound parameters, i.e. when some argument is a
`TypeVar` (the alias's `__parameters__` collects the `TypeVar`s occurring in
its `__args__`). -/
def checkGenericsReified (args : List TypeForm) : Except PyErr Unit :=
  if args.any TypeForm.isTVar then .error .notReifiedParameterError else .ok ()

/-- The `for` loop of `_ReifiedGenericAlias._type_var_check` in
`src/basedtyping/__init__.py:72-86`: a three-way `zip(..., strict=True)` over
the parameters' variances, the alias's own arguments (`self_arg`) and the
candidate's arguments (`subclass_arg`).  Contravariant positions require
`issubform(self_arg, subclass_arg)`, covariant positions require
`issubform(subclass_arg, self_arg)`, and all other positions require
`subclass_arg == self_arg`; the strict zip raises `ValueError` when one list
runs out before the others. -/
def typeVarLoop : List Variance → List TypeForm → List TypeForm → Except PyErr Bool
  | [], [], [] => .ok true
  | p :: ps, s :: ss, a :: rest =>
    match p with
    | .contravariant =>
      match issubform s a with
      | .error e => .error e
      | .ok b => if b then typeVarLoop ps ss rest else .ok false
    | .covariant =>
      match issubform a s with
      | .error e => .error e
      | .ok b => if b then typeVarLoop ps ss rest else .ok false
    | .invariant => if pyEq a s then typeVarLoop ps ss rest else .ok false
  | _, _, _ => .error .valueError

/-- `_ReifiedGenericAlias._type_var_check` of `src/basedtyping/__init__.py`
(lines 70-86): first checks that the alias itself is fully reified, then runs
the variance loop against the candidate's arguments. -/
def typeVarCheck (selfVars : List Variance) (selfArgs args : List TypeForm) :
    Except PyErr Bool :=
  match checkGenericsReified selfArgs with
  | .error e => .error e
  | .ok _ => typeVarLoop selfVars selfArgs args

/-- `_ReifiedGenericAlias.__subclasscheck__` (`src/basedtyping/__init__.py:88-95`),
with `self` the reference alias and `subclass` the candidate: returns `False`
when the candidate's origin is not a subform of the reference's origin (the
`isinstance(subclass, _ReifiedGenericAlias)` guard holds by typing here), then
checks the candidate is fully reified, then delegates to `_type_var_check`. -/
def subclasscheck (self subclass : Descriptor) : Except PyErr Bool :=
  match issubform (.cls subclass.origin) (.cls self.origin) with
  | .error e => .error e
  | .ok b =>
    if !b then .ok false
    else
      match checkGenericsReified subclass.args with
      | .error e => .error e
      | .ok _ => typeVarCheck self.typeVars self.args subclass.args

/-- The spec's `is_subtype(candidate, reference)`: Python's
`issubclass(candidate, reference)` dispatches to the reference alias's
`__subclasscheck__` with the candidate as argument. -/
def is_subtype (candidate reference : Descriptor) : Except PyErr Bool :=
  subclasscheck reference candidate

/-- A runtime object: its runtime class, and (when it was constructed through
the reified-generic gate, making it a `ReifiedGeneric` carrying a
back-reference) its `__orig_class__` descriptor. -/
structure PyObj where
  runtimeCls : PyClass
  origClass : Option Descriptor
  deriving DecidableEq, Repr

/-- `_ReifiedGenericAlias.__instancecheck__` (`src/basedtyping/__init__.py:97-103`):
returns `False` unless the object is an ordinary instance of the reference's
origin class and is a `ReifiedGeneric` carrying reification metadata;
otherwise delegates to `_type_var_check` on the object's own
`__orig_class__.__args__`. -/
def instancecheck (self : Descriptor) (obj : PyObj) : Except PyErr Bool :=
  if !(subclassB obj.runtimeCls self.origin) || obj.origClass.isNone then .ok false
  else
    match obj.origClass with
    | some d => typeVarCheck self.typeVars self.args d.args
    | none => .ok false

/-- The spec's `is_instance(object, reference)`: Python's `isinstance`
dispatches to the reference alias's `__instancecheck__`. -/
def is_instance (obj : PyObj) (reference : Descriptor) : Except PyErr Bool :=
  instancecheck reference obj

/-- `_ReifiedGenericAlias.__call__` (`src/basedtyping/__init__.py:40-54`):
instantiation through a parameterized alias (the `self._inst` guard passes for
these aliases) first checks that the generics are reified, then constructs the
object through `_actual_call` and attaches the alias as the new object's
`__orig_class__` back-reference. -/
def aliasCall (self : Descriptor) : Except PyErr PyObj :=
  match checkGenericsReified self.args with
  | .error e => .error e
  | .ok _ => .ok ⟨self.origin, some self⟩

/-- What a constructor call is aimed at: the bare (unparameterized) template
class, or a parameterized alias. -/
inductive ConstructTarget where
  | bare (c : PyClass)
  | parameterized (d : Descriptor)
  deriving DecidableEq, Repr

/-- Instantiation dispatch: calling the bare template class hits
`_ReifiedGenericMetaclass.__call__` (`src/basedtyping/__init__.py:139-151`),
which unconditionally raises `NoParametersError`; calling a parameterized
alias runs `_ReifiedGenericAlias.__call__`. -/
def instantiate : ConstructTarget → Except PyErr PyObj
  | .bare _ => .error .noParametersError
  | .parameterized d => aliasCall d

/-- Modelled from the spec: `is_subclass` is imported from
`basedtyping.runtime_checks`, a module absent from the sources; §4.1 of the
spec describes the non-union case as delegation to "ordinary subclass
checking", so it is modelled as the builtin subclass check, accepting only a
class on the left. -/
def is_subclass (form reference : TypeForm) : Except PyErr Bool :=
  match form with
  | .cls c => issubclass c reference
  | _ => .error .typeError

/-- The `for` loop of `_ReifiedGenericAlias._type_var_check` in
`src/basedtyping/reified_generic.py:17-30`: the same strict three-way zip, but
with three independent `if` statements rather than an `elif` chain — a
covariant position requires `is_subclass(subclass_arg, self_arg)`, a
contravariant position requires `is_subclass(self_arg, subclass_arg)`, and
EVERY position additionally requires `self_arg is subclass_arg` (object
identity).  `is_subclass` is only evaluated when the corresponding variance
flag is set (Python's short-circuiting `and`). -/
def typeVarLoopRG : List Variance → List TypeForm → List TypeForm → Except PyErr Bool
  | [], [], [] => .ok true
  | p :: ps, s :: ss, a :: rest =>
    match (if p = .covariant then is_subclass a s else .ok true) with
    | .error e => .error e
    | .ok b1 =>
      if !b1 then .ok false
      else
        match (if p = .contravariant then is_subclass s a else .ok true) with
        | .error e => .error e
        | .ok b2 =>
          if !b2 then .ok false
          else if !(pyIs s a) then .ok false
          else typeVarLoopRG ps ss rest
  | _, _, _ => .error .valueError

/-- `_ReifiedGenericAlias._type_var_check` of
`src/basedtyping/reified_generic.py` (lines 17-30): unlike the `__init__.py`
version it performs no reification check before the loop. -/
def typeVarCheckRG (selfVars : List Variance) (selfArgs args : List TypeForm) :
    Except PyErr Bool :=
  typeVarLoopRG selfVars selfArgs args

/-! ### Helper lemmas -/

instance : DecidableEq (Except PyErr Bool) := fun a b =>
  match a, b with
  | .ok x, .ok y =>
    if h : x = y then isTrue (by rw [h]) else isFalse (by simp [h])
  | .error e, .error f =>
    if h : e = f then isTrue (by rw [h]) else isFalse (by simp [h])
  | .ok _, .error _ => isFalse (by simp)
  | .error _, .ok _ => isFalse (by simp)

theorem subclassB_refl (c : PyClass) : subclassB c c = true := by
  cases c <;> rfl

theorem issubformUnion_ok_true_iff (ts : List PyClass) (r : TypeForm) :
    issubformUnion ts r = .ok true ↔ ∀ t ∈ ts, issubclass t r = .ok true := by
  induction ts with
  | nil => simp [issubformUnion]
  | cons t rest ih =>
    simp only [issubformUnion]
    cases h : issubclass t r with
    | error e => simp [h]
    | ok b =>
      cases b with
      | true => simp [h, ih]
      | false => simp [h]

theorem pyEq_refl (a : TypeForm) : pyEq a a = true := by
  cases a with
  | cls c => simp [pyEq]
  | unionNew ts =>
    simp only [pyEq, memberSetEq, Bool.and_eq_true, List.all_eq_true]
    exact ⟨fun x hx => by simpa using hx, fun x hx => by simpa using hx⟩
  | unionOld ts =>
    simp only [pyEq, memberSetEq, Bool.and_eq_true, List.all_eq_true]
    exact ⟨fun x hx => by simpa using hx, fun x hx => by simpa using hx⟩
  | tvar n => simp [pyEq]

theorem issubform_refl (a : TypeForm) (h : a.isTVar = false) :
    issubform a a = .ok true := by
  cases a with
  | cls c => simp [issubform, issubclass, subclassB_refl]
  | unionNew ts =>
    simp only [issubform]
    exact (issubformUnion_ok_true_iff ts _).mpr fun t ht => by
      simp only [issubclass, Except.ok.injEq]
      exact List.any_eq_true.mpr ⟨t, ht, subclassB_refl t⟩
  | unionOld ts =>
    simp only [issubform]
    exact (issubformUnion_ok_true_iff ts _).mpr fun t ht => by
      simp only [issubclass, Except.ok.injEq]
      exact List.any_eq_true.mpr ⟨t, ht, subclassB_refl t⟩
  | tvar n => simp [TypeForm.isTVar] at h

theorem typeVarLoop_refl :
    ∀ (vs : List Variance) (as' : List TypeForm), vs.length = as'.length →
      (∀ a ∈ as', a.isTVar = false) → typeVarLoop vs as' as' = .ok true := by
  intro vs
  induction vs with
  | nil =>
    intro as' hlen _
    cases as' with
    | nil => rfl
    | cons a rest => simp at hlen
  | cons v vs ih =>
    intro as' hlen hfree
    cases as' with
    | nil => simp at hlen
    | cons a rest =>
      have ha : a.isTVar = false := hfree a (List.mem_cons_self a rest)
      have hrest : ∀ b ∈ rest, b.isTVar = false :=
        fun b hb => hfree b (List.mem_cons_of_mem a hb)
      have hlen' : vs.length = rest.length := by simpa using hlen
      have hrec := ih rest hlen' hrest
      cases v with
      | covariant => simp [typeVarLoop, issubform_refl a ha, hrec]
      | contravariant => simp [typeVarLoop, issubform_refl a ha, hrec]
      | invariant => simp [typeVarLoop, pyEq_refl, hrec]

theorem map_cls_tvar_free (cs : List PyClass) :
    (cs.map TypeForm.cls).any TypeForm.isTVar = false := by
  induction cs with
  | nil => rfl
  | cons c rest ih => simp [TypeForm.isTVar, ih]

theorem typeVarLoop_map_cls :
    ∀ (vs : List Variance) (cs : List PyClass), vs.length = cs.length →
      typeVarLoop vs (cs.map TypeForm.cls) (cs.map TypeForm.cls) = .ok true := by
  intro vs cs hlen
  apply typeVarLoop_refl
  · simpa using hlen
  · intro a ha
    obtain ⟨c, _, rfl⟩ := List.mem_map.mp ha
    rfl

theorem typeVarLoopRG_map_cls :
    ∀ (vs : List Variance) (cs : List PyClass), vs.length = cs.length →
      typeVarLoopRG vs (cs.map TypeForm.cls) (cs.map TypeForm.cls) = .ok true := by
  intro vs
  induction vs with
  | nil =>
    intro cs hlen
    cases cs with
    | nil => rfl
    | cons c rest => simp at hlen
  | cons v vs ih =>
    intro cs hlen
    cases cs with
    | nil => simp at hlen
    | cons c rest =>
      have hlen' : vs.length = rest.length := by simpa using hlen
      have hrec := ih rest hlen'
      cases v with
      | covariant =>
        simp [typeVarLoopRG, is_subclass, issubclass, subclassB_refl, pyIs, List.map] at hrec ⊢
        exact hrec
      | contravariant =>
        simp [typeVarLoopRG, is_subclass, issubclass, subclassB_refl, pyIs, List.map] at hrec ⊢
        exact hrec
      | invariant =>
        simp [typeVarLoopRG, pyIs, List.map] at hrec ⊢
        exact hrec

/-! ### Claim theorems -/

/-- C1: for a template whose single parameter is declared covariant, the
subtype check accepts a candidate whose argument is a subform of the
reference's argument and rejects the reverse: for every covariant
one-parameter template `Foo`, `is_subtype(Foo[int], Foo[int|str])` is true and
`is_subtype(Foo[int|str], Foo[int])` is false. -/
theorem C1_covariant_law :
    ∀ o : PyClass,
      is_subtype ⟨o, [.covariant], [.cls .pyInt]⟩
          ⟨o, [.covariant], [.unionNew [.pyInt, .pyStr]]⟩ = .ok true ∧
      is_subtype ⟨o, [.covariant], [.unionNew [.pyInt, .pyStr]]⟩
          ⟨o, [.covariant], [.cls .pyInt]⟩ = .ok false := by
  intro o
  cases o <;> exact ⟨rfl, rfl⟩

/-- C2: for a template whose single parameter is declared contravariant, the
subtype check accepts a candidate whose argument is a superform of the
reference's argument and rejects the reverse: for every contravariant
one-parameter template `Bar`, `is_subtype(Bar[int|str], Bar[int])` is true and
`is_subtype(Bar[int], Bar[int|str])` is false. -/
theorem C2_contravariant_law :
    ∀ o : PyClass,
      is_subtype ⟨o, [.contravariant], [.unionNew [.pyInt, .pyStr]]⟩
          ⟨o, [.contravariant], [.cls .pyInt]⟩ = .ok true ∧
      is_subtype ⟨o, [.contravariant], [.cls .pyInt]⟩
          ⟨o, [.contravariant], [.unionNew [.pyInt, .pyStr]]⟩ = .ok false := by
  intro o
  cases o <;> exact ⟨rfl, rfl⟩

/-- C3 counterexample: the claim says the invariant-position check requires
identity of the concrete type, "not merely equal type forms"; but
`__init__.py`'s engine compares with Python `==`, so a candidate
`Baz[str|int]` is accepted against the reference `Baz[int|str]` although the
two union arguments are distinct, non-identical type forms. -/
theorem C3_identity_counterexample :
    is_subtype ⟨.clsA, [.invariant], [.unionNew [.pyStr, .pyInt]]⟩
        ⟨.clsA, [.invariant], [.unionNew [.pyInt, .pyStr]]⟩ = .ok true ∧
    pyIs (.unionNew [.pyStr, .pyInt]) (.unionNew [.pyInt, .pyStr]) = false ∧
    TypeForm.unionNew [.pyStr, .pyInt] ≠ TypeForm.unionNew [.pyInt, .pyStr] := by
  refine ⟨rfl, rfl, ?_⟩
  decide

/-- C3 (amended): at an invariant parameter position `is_subtype` requires the
candidate's and the reference's argument to be equal type forms under the
language's equality (for unions, equal member sets) — not identity; in
particular `is_subtype(Baz[int], Baz[int|str])` and
`is_subtype(Baz[int|str], Baz[int])` are both false for every invariant
one-parameter template `Baz`. -/
theorem C3_invariant_law :
    (∀ o : PyClass,
      is_subtype ⟨o, [.invariant], [.cls .pyInt]⟩
          ⟨o, [.invariant], [.unionNew [.pyInt, .pyStr]]⟩ = .ok false ∧
      is_subtype ⟨o, [.invariant], [.unionNew [.pyInt, .pyStr]]⟩
          ⟨o, [.invariant], [.cls .pyInt]⟩ = .ok false) ∧
    ∀ (o : PyClass) (a b : TypeForm), a.isTVar = false → b.isTVar = false →
      is_subtype ⟨o, [.invariant], [a]⟩ ⟨o, [.invariant], [b]⟩ = .ok (pyEq a b) := by
  constructor
  · intro o
    cases o <;> exact ⟨rfl, rfl⟩
  · intro o a b ha hb
    simp only [is_subtype, subclasscheck, issubform, issubclass, subclassB_refl,
      checkGenericsReified, typeVarCheck, typeVarLoop, List.any_cons, List.any_nil,
      ha, hb, Bool.or_false, Bool.not_true, if_false, Bool.false_eq_true]
    cases h : pyEq a b <;> simp [h]

/-- C3 witness for the amended claim's hypotheses, instantiated at the
concrete arguments `int` and `str`. -/
theorem C3_invariant_law_witness :
    (TypeForm.cls .pyInt).isTVar = false ∧ (TypeForm.cls .pyStr).isTVar = false ∧
    is_subtype ⟨.clsA, [.invariant], [.cls .pyInt]⟩
        ⟨.clsA, [.invariant], [.cls .pyStr]⟩ =
      .ok (pyEq (.cls .pyInt) (.cls .pyStr)) :=
  ⟨rfl, rfl, C3_invariant_law.2 .clsA (.cls .pyInt) (.cls .pyStr) rfl rfl⟩

/-- C4 counterexample: the claim says a descriptor containing an unbound
parameter in either position of a subtype comparison makes the operation fail
with the unbound-type-variable error; but `__subclasscheck__` checks the
origins first, so a candidate `Other[P]` with an unbound parameter but an
origin unrelated to the reference's returns the boolean `False` instead of
raising. -/
theorem C4_origin_counterexample :
    [TypeForm.tvar 0].any TypeForm.isTVar = true ∧
    is_subtype ⟨.clsOther, [.invariant], [.tvar 0]⟩
        ⟨.clsA, [.invariant], [.cls .pyInt]⟩ = .ok false := by
  exact ⟨rfl, rfl⟩

/-- C4 (amended): instantiating a partially-reified descriptor always fails
with the unbound-type-variable error kind; a subtype comparison containing an
unbound parameter in either position fails with that error provided the
candidate's origin is a subclass of the reference's origin (otherwise the
comparison returns false without examining the arguments). -/
theorem C4_unbound_type_variable :
    (∀ d : Descriptor, d.args.any TypeForm.isTVar = true →
        instantiate (.parameterized d) = .error .notReifiedParameterError) ∧
    ∀ cand ref : Descriptor, subclassB cand.origin ref.origin = true →
      (cand.args.any TypeForm.isTVar || ref.args.any TypeForm.isTVar) = true →
      is_subtype cand ref = .error .notReifiedParameterError := by
  constructor
  · intro d h
    simp [instantiate, aliasCall, checkGenericsReified, h]
  · intro cand ref h1 h2
    simp only [is_subtype, subclasscheck, issubform, issubclass, h1, Bool.not_true,
      if_false, Bool.false_eq_true]
    cases hc : cand.args.any TypeForm.isTVar with
    | true => simp [checkGenericsReified, hc]
    | false =>
      have hr : ref.args.any TypeForm.isTVar = true := by simpa [hc] using h2
      simp [checkGenericsReified, hc, hr, typeVarCheck]

/-- C4 witness: the amended claim applied to the partially-reified descriptor
`A[P]` for instantiation, and to the comparison of `B[P]` against `A[int]`
(with `B` a subclass of `A`). -/
theorem C4_unbound_type_variable_witness :
    ([TypeForm.tvar 0].any TypeForm.isTVar = true ∧
      subclassB .clsB .clsA = true) ∧
    instantiate (.parameterized ⟨.clsA, [.invariant], [.tvar 0]⟩) =
      .error .notReifiedParameterError ∧
    is_subtype ⟨.clsB, [.invariant], [.tvar 0]⟩ ⟨.clsA, [.invariant], [.cls .pyInt]⟩ =
      .error .notReifiedParameterError :=
  ⟨⟨rfl, rfl⟩,
    C4_unbound_type_variable.1 ⟨.clsA, [.invariant], [.tvar 0]⟩ rfl,
    C4_unbound_type_variable.2 ⟨.clsB, [.invariant], [.tvar 0]⟩
      ⟨.clsA, [.invariant], [.cls .pyInt]⟩ rfl rfl⟩

/-- C5: instantiating the bare (unparameterized) template — calling the
constructor without first supplying type parameters — always fails with
`NoParametersError` instead of producing an object; the parameterized path,
by contrast, never raises that error kind. -/
theorem C5_no_parameters_error :
    (∀ c : PyClass, instantiate (.bare c) = .error .noParametersError) ∧
    ∀ d : Descriptor, instantiate (.parameterized d) ≠ .error .noParametersError := by
  refine ⟨fun _ => rfl, fun d => ?_⟩
  cases h : d.args.any TypeForm.isTVar <;>
    simp [instantiate, aliasCall, checkGenericsReified, h]

/-- C5 witness: the bare template `A` fails with `NoParametersError`; the
parameterized alias `A[int]` does not. -/
theorem C5_no_parameters_error_witness :
    instantiate (.bare .clsA) = .error .noParametersError ∧
    instantiate (.parameterized ⟨.clsA, [.invariant], [.cls .pyInt]⟩) ≠
      .error .noParametersError :=
  ⟨C5_no_parameters_error.1 .clsA,
    C5_no_parameters_error.2 ⟨.clsA, [.invariant], [.cls .pyInt]⟩⟩

/-- C6: the subform predicate on a union form holds iff every member of the
union is an ordinary subclass of the reference; on a non-union (class) form it
coincides with ordinary subclass checking; and the four concrete subform laws
hold: `is_subform(int, int|str)`, `is_subform(int|str, object)` and
`is_subform(int|str, int|str)` are true while `is_subform(int|str, int)` is
false. -/
theorem C6_issubform_law :
    (∀ (ts : List PyClass) (r : TypeForm),
        (issubform (.unionNew ts) r = .ok true ↔ ∀ t ∈ ts, issubclass t r = .ok true)) ∧
    (∀ (c : PyClass) (r : TypeForm), issubform (.cls c) r = issubclass c r) ∧
    issubform (.cls .pyInt) (.unionNew [.pyInt, .pyStr]) = .ok true ∧
    issubform (.unionNew [.pyInt, .pyStr]) (.cls .pyInt) = .ok false ∧
    issubform (.unionNew [.pyInt, .pyStr]) (.cls .pyObject) = .ok true ∧
    issubform (.unionNew [.pyInt, .pyStr]) (.unionNew [.pyInt, .pyStr]) = .ok true :=
  ⟨fun ts r => issubformUnion_ok_true_iff ts r, fun _ _ => rfl, rfl, rfl, rfl, rfl⟩

/-- C6 witness: the union characterization applied at the concrete union
`int | str` against the reference `object`. -/
theorem C6_issubform_law_witness :
    (∀ t ∈ [PyClass.pyInt, PyClass.pyStr], issubclass t (.cls .pyObject) = .ok true) ∧
    issubform (.unionNew [.pyInt, .pyStr]) (.cls .pyObject) = .ok true :=
  ⟨by decide,
    (C6_issubform_law.1 [.pyInt, .pyStr] (.cls .pyObject)).mpr (by decide)⟩

/-- C7: `is_subtype` is reflexive on fully reified descriptors: for every
descriptor `D` whose argument tuple matches its template's parameter count and
contains no unbound type variables — whatever the variances and whether the
arguments are concrete classes or unions — `is_subtype(D, D)` is true. -/
theorem C7_reflexivity (d : Descriptor)
    (hlen : d.typeVars.length = d.args.length)
    (hfree : d.args.any TypeForm.isTVar = false) :
    is_subtype d d = .ok true := by
  have hfree' : ∀ a ∈ d.args, a.isTVar = false := by
    intro a ha
    cases h : a.isTVar with
    | false => rfl
    | true => exact absurd (List.any_eq_true.mpr ⟨a, ha, h⟩) (by simp [hfree])
  simp [is_subtype, subclasscheck, issubform, issubclass, subclassB_refl, hfree,
    checkGenericsReified, typeVarCheck, typeVarLoop_refl d.typeVars d.args hlen hfree']

/-- C7 witness: reflexivity at a concrete three-parameter descriptor mixing
the three variances and class, new-union and old-union arguments. -/
theorem C7_reflexivity_witness :
    ([Variance.covariant, Variance.contravariant, Variance.invariant].length =
        [TypeForm.cls .pyInt, TypeForm.unionNew [.pyInt, .pyStr],
          TypeForm.unionOld [.pyStr, .pyBool]].length ∧
      [TypeForm.cls .pyInt, TypeForm.unionNew [.pyInt, .pyStr],
          TypeForm.unionOld [.pyStr, .pyBool]].any TypeForm.isTVar = false) ∧
    is_subtype
      ⟨.clsA, [.covariant, .contravariant, .invariant],
        [.cls .pyInt, .unionNew [.pyInt, .pyStr], .unionOld [.pyStr, .pyBool]]⟩
      ⟨.clsA, [.covariant, .contravariant, .invariant],
        [.cls .pyInt, .unionNew [.pyInt, .pyStr], .unionOld [.pyStr, .pyBool]]⟩ =
      .ok true :=
  ⟨⟨rfl, rfl⟩,
    C7_reflexivity
      ⟨.clsA, [.covariant, .contravariant, .invariant],
        [.cls .pyInt, .unionNew [.pyInt, .pyStr], .unionOld [.pyStr, .pyBool]]⟩
      rfl rfl⟩

/-- C8: `is_instance` returns false unless the object both is an ordinary
instance of the reference's origin class and carries a reification
back-reference from being constructed through the gate; in particular a plain
object of the right runtime class lacking reification metadata is never an
instance of a reified type. -/
theorem C8_instance_guard (self : Descriptor) (obj : PyObj)
    (h : subclassB obj.runtimeCls self.origin = false ∨ obj.origClass = none) :
    is_instance obj self = .ok false := by
  rcases h with h | h
  · simp [is_instance, instancecheck, h]
  · simp [is_instance, instancecheck, h]

/-- C8 witness: a plain object of the exact runtime class `A` but with no
`__orig_class__` metadata is not an instance of the reified `A[int]`. -/
theorem C8_instance_guard_witness :
    (subclassB (PyObj.mk .clsA none).runtimeCls
        (Descriptor.mk .clsA [.invariant] [.cls .pyInt]).origin = false ∨
      (PyObj.mk .clsA none).origClass = none) ∧
    is_instance ⟨.clsA, none⟩ ⟨.clsA, [.invariant], [.cls .pyInt]⟩ = .ok false :=
  ⟨Or.inr rfl, C8_instance_guard ⟨.clsA, [.invariant], [.cls .pyInt]⟩ ⟨.clsA, none⟩
    (Or.inr rfl)⟩

/-- C9 counterexample: the two parallel `_type_var_check` implementations are
not extensionally equal — at an invariant position holding equal but distinct
union objects (`int|str` versus `str|int`), the `__init__.py` version (which
compares with `==`) returns true while the `reified_generic.py` version (which
requires object identity at every position) returns false. -/
theorem C9_divergence_counterexample :
    typeVarCheck [.invariant] [.unionNew [.pyInt, .pyStr]]
        [.unionNew [.pyStr, .pyInt]] = .ok true ∧
    typeVarCheckRG [.invariant] [.unionNew [.pyInt, .pyStr]]
        [.unionNew [.pyStr, .pyInt]] = .ok false :=
  ⟨rfl, rfl⟩

/-- C9 (amended): the two implementations agree on argument tuples in which
every position holds the identical concrete class (both then return true);
in general they diverge, because `reified_generic.py` additionally requires
object identity at every position regardless of variance and performs no
reification check. -/
theorem C9_agreement_on_identical_classes :
    ∀ (vs : List Variance) (cs : List PyClass), vs.length = cs.length →
      typeVarCheck vs (cs.map TypeForm.cls) (cs.map TypeForm.cls) =
        typeVarCheckRG vs (cs.map TypeForm.cls) (cs.map TypeForm.cls) ∧
      typeVarCheck vs (cs.map TypeForm.cls) (cs.map TypeForm.cls) = .ok true := by
  intro vs cs h
  have h1 := typeVarLoop_map_cls vs cs h
  have h2 := typeVarLoopRG_map_cls vs cs h
  constructor
  · simp [typeVarCheck, typeVarCheckRG, checkGenericsReified, map_cls_tvar_free,
      h1, h2]
  · simp [typeVarCheck, checkGenericsReified, map_cls_tvar_free, h1]

/-- C9 witness: agreement at one parameter of each variance over the identical
class arguments `(int, str, bool)`. -/
theorem C9_agreement_witness :
    [Variance.covariant, Variance.contravariant, Variance.invariant].length =
        [PyClass.pyInt, PyClass.pyStr, PyClass.pyBool].length ∧
    (typeVarCheck [.covariant, .contravariant, .invariant]
          ([PyClass.pyInt, PyClass.pyStr, PyClass.pyBool].map TypeForm.cls)
          ([PyClass.pyInt, PyClass.pyStr, PyClass.pyBool].map TypeForm.cls) =
        typeVarCheckRG [.covariant, .contravariant, .invariant]
          ([PyClass.pyInt, PyClass.pyStr, PyClass.pyBool].map TypeForm.cls)
          ([PyClass.pyInt, PyClass.pyStr, PyClass.pyBool].map TypeForm.cls) ∧
      typeVarCheck [.covariant, .contravariant, .invariant]
          ([PyClass.pyInt, PyClass.pyStr, PyClass.pyBool].map TypeForm.cls)
          ([PyClass.pyInt, PyClass.pyStr, PyClass.pyBool].map TypeForm.cls) = .ok true) :=
  ⟨rfl, C9_agreement_on_identical_classes [.covariant, .contravariant, .invariant]
    [.pyInt, .pyStr, .pyBool] rfl⟩

/-- C10: the subform predicate accepts old-style unions (`typing.Union[X, Y]`)
as the form argument and judges them exactly as the new-style union with the
same member set: a subform of a reference iff every member is a subclass of
it; with the repository's concrete old-union test cases. -/
theorem C10_old_style_union :
    (∀ (ts : List PyClass) (r : TypeForm),
        issubform (.unionOld ts) r = issubform (.unionNew ts) r) ∧
    (∀ (ts : List PyClass) (r : TypeForm),
        (issubform (.unionOld ts) r = .ok true ↔ ∀ t ∈ ts, issubclass t r = .ok true)) ∧
    issubform (.unionOld [.pyInt, .pyStr]) (.cls .pyInt) = .ok false ∧
    issubform (.unionOld [.pyInt, .pyStr]) (.cls .pyObject) = .ok true ∧
    issubform (.unionOld [.pyInt, .pyStr]) (.unionOld [.pyStr, .pyInt]) = .ok true ∧
    issubform (.unionOld [.pyInt, .pyStr]) (.unionNew [.pyInt, .pyStr]) = .ok true :=
  ⟨fun _ _ => rfl, fun ts r => issubformUnion_ok_true_iff ts r, rfl, rfl, rfl, rfl⟩

/-- C10 witness: the old-union characterization applied at the concrete
old-style union `Union[int, str]` against the reference `object`. -/
theorem C10_old_style_union_witness :
    (∀ t ∈ [PyClass.pyInt, PyClass.pyStr], issubclass t (.cls .pyObject) = .ok true) ∧
    issubform (.unionOld [.pyInt, .pyStr]) (.cls .pyObject) = .ok true :=
  ⟨by decide,
    (C10_old_style_union.2.1 [.pyInt, .pyStr] (.cls .pyObject)).mpr (by decide)⟩

end Basedtyping
